import Mathlib

/-
Verification of the prewarning punch ingestion-and-delivery pipeline.

Shallow embedding of the pipeline core:
  punchsources/punch_source_ola_mysql.py      (database polling source)
  punchsources/punch_source_olresultat_se.py  (remote-URL polling source)
  startlistsources/start_list_source_file.py  (file-backed roster source)
  prewarning.py                               (enrichment and announcement consumer loops)
  utils/sound.py                              (audio sink)

Python exceptions are modelled with Except; dictionary key absence is
modelled with an outer Option (key present or not) around an inner
Option (the stored value, which itself may be Python None).
-/

namespace Prewarning

/-- The exception classes that can cross a loop boundary in the embedded code:
HTTPError and URLError from urllib, KeyError and ValueError from record
handling, pymysql OperationalError, and subprocess CalledProcessError. -/
inductive PyError where
  | httpError
  | urlError
  | keyError
  | valueError
  | operationalError
  | calledProcessError
deriving DecidableEq, Repr

/-! ## Database polling source (PunchSourceOlaMySql) -/

/-- The cursor-relevant mutable state of PunchSourceOlaMySql:
last_modify_time, last_received_punch_id and _last_written_punch_ids. -/
structure OlaMySqlState where
  lastModifyTime : String
  lastReceivedPunchId : String
  lastWrittenPunchIds : List String
deriving DecidableEq, Repr

/-- PunchSourceOlaMySql._not_in_last_written: true when the delivered value is
not in the in-memory list of values this process has itself written. -/
def notInLastWritten (s : OlaMySqlState) (newLastReceivedPunchId : String) : Bool :=
  !(s.lastWrittenPunchIds.contains newLastReceivedPunchId)

/-- The cursor part of PunchSourceOlaMySql._parse_config: accept the delivered
config values only when the delivered punch id is not in the write-set, and
clear the write-set when the delivered id matches the (then) held id. -/
def parseConfigCursor (s : OlaMySqlState)
    (cfgLastModifiedTime cfgLastReceivedPunchId : String) : OlaMySqlState :=
  let s1 := if notInLastWritten s cfgLastReceivedPunchId then
      { s with lastModifyTime := cfgLastModifiedTime,
               lastReceivedPunchId := cfgLastReceivedPunchId }
    else s
  if s1.lastReceivedPunchId = cfgLastReceivedPunchId then
    { s1 with lastWrittenPunchIds := [] }
  else s1

/-- One row returned by get_event_race_split_times, restricted to the two
fields the polling loop reads: the synthetic id and the modification time. -/
structure SplitTime where
  id : String
  modifyDate : String
deriving DecidableEq, Repr

/-- The per-row body of the loop in PunchSourceOlaMySql._fetch_punches:
skip a row whose id equals last_received_punch_id, otherwise notify the
listeners, advance the cursor and append the id to the write-set.
Returns the new state and the list of delivered rows. -/
def processSplitTime (s : OlaMySqlState) (st : SplitTime) :
    OlaMySqlState × List SplitTime :=
  if s.lastReceivedPunchId = st.id then (s, [])
  else ({ lastModifyTime := st.modifyDate,
          lastReceivedPunchId := st.id,
          lastWrittenPunchIds := s.lastWrittenPunchIds ++ [st.id] }, [st])

/-- The first statement of every iteration of
PunchSourceOlaMySql._fetch_punches: _last_written_punch_ids.clear(). -/
def fetchIterationStart (s : OlaMySqlState) : OlaMySqlState :=
  { s with lastWrittenPunchIds := [] }

/-- Processing of one fetched batch, in source order. -/
def processSplitTimes (s : OlaMySqlState) (batch : List SplitTime) :
    OlaMySqlState × List SplitTime :=
  batch.foldl
    (fun acc st =>
      let r := processSplitTime acc.1 st
      (r.1, acc.2 ++ r.2))
    (s, [])

/-- One full iteration of the PunchSourceOlaMySql._fetch_punches loop body:
clear the write-set, then run the fetch inside a try that catches only
pymysql OperationalError; every other exception escapes the loop. -/
def olaFetchIteration (s : OlaMySqlState)
    (fetchResult : Except PyError (List SplitTime)) :
    Except PyError (OlaMySqlState × List SplitTime) :=
  match fetchResult with
  | .error .operationalError => .ok (fetchIterationStart s, [])
  | .error e => .error e
  | .ok batch => .ok (processSplitTimes (fetchIterationStart s) batch)

/-! ## Theorems for claims C1 and C9 -/

/-- C1: for the database polling source, when the configuration-reload
callback delivers a new cursor value: a value found in the write-set leaves
the held lastId and watermark unchanged; a delivered value equal to the
currently held lastId clears the write-set; and a value not in the write-set
is accepted as the new cursor (unconditionally, hence also when it is older
than the held value). -/
theorem parse_config_regression_guard (s : OlaMySqlState)
    (cfgM cfgI : String) :
    (s.lastWrittenPunchIds.contains cfgI = true →
      (parseConfigCursor s cfgM cfgI).lastReceivedPunchId = s.lastReceivedPunchId ∧
      (parseConfigCursor s cfgM cfgI).lastModifyTime = s.lastModifyTime) ∧
    (cfgI = s.lastReceivedPunchId →
      (parseConfigCursor s cfgM cfgI).lastWrittenPunchIds = []) ∧
    (s.lastWrittenPunchIds.contains cfgI = false →
      (parseConfigCursor s cfgM cfgI).lastReceivedPunchId = cfgI ∧
      (parseConfigCursor s cfgM cfgI).lastModifyTime = cfgM) := by
  refine ⟨?_, ?_, ?_⟩ <;> intro h
  · simp only [parseConfigCursor, notInLastWritten, h]
    refine ⟨?_, ?_⟩ <;> simp <;> split <;> rfl
  · subst h
    simp only [parseConfigCursor, notInLastWritten]
    by_cases hc : s.lastReceivedPunchId ∈ s.lastWrittenPunchIds <;> simp [hc]
  · simp only [parseConfigCursor, notInLastWritten, h]
    simp

/-- Witness for parse_config_regression_guard: with held cursor 7 and
write-set containing 6 and 7, an external value 3 is accepted, while a
round-tripped 6 leaves the cursor at 7. -/
theorem parse_config_regression_guard_witness :
    (parseConfigCursor ⟨"w0", "7", ["6", "7"]⟩ "w1" "3").lastReceivedPunchId = "3" ∧
    (parseConfigCursor ⟨"w0", "7", ["6", "7"]⟩ "w1" "6").lastReceivedPunchId = "7" :=
  ⟨((parse_config_regression_guard ⟨"w0", "7", ["6", "7"]⟩ "w1" "3").2.2 (by decide)).1,
   ((parse_config_regression_guard ⟨"w0", "7", ["6", "7"]⟩ "w1" "6").1 (by decide)).1⟩

/-- C9: the database polling source clears its write-set at the start of
every poll iteration, so a configuration reload arriving between the start of
an iteration and its first cursor write is accepted as authoritative, even
for a value this process wrote in an earlier iteration. -/
theorem iteration_start_clears_write_set (s : OlaMySqlState)
    (v cfgM : String) (_hv : v ∈ s.lastWrittenPunchIds) :
    (fetchIterationStart s).lastWrittenPunchIds = [] ∧
    (parseConfigCursor (fetchIterationStart s) cfgM v).lastReceivedPunchId = v := by
  constructor
  · rfl
  · simp [parseConfigCursor, notInLastWritten, fetchIterationStart]

/-- Witness for iteration_start_clears_write_set: the id 7 written in an
earlier iteration is accepted again after the clear at iteration start. -/
theorem iteration_start_clears_write_set_witness :
    (fetchIterationStart ⟨"w0", "7", ["7"]⟩).lastWrittenPunchIds = [] ∧
    (parseConfigCursor (fetchIterationStart ⟨"w0", "7", ["7"]⟩) "w1" "7").lastReceivedPunchId = "7" :=
  iteration_start_clears_write_set ⟨"w0", "7", ["7"]⟩ "7" "w1" (by decide)

/-! ## Remote-URL polling source (PunchSourceOlresultatSe) -/

/-- The dict built by dict(zip((id, controlCode, cardNumber, passedTime),
line.split(semicolon))): a key is present only when the line has enough
fields, and zip drops any extra fields. -/
structure RocPunchDict where
  id : Option String
  controlCode : Option String
  cardNumber : Option String
  passedTime : Option String
deriving DecidableEq, Repr

/-- Python str.split on a one-character separator: every occurrence splits,
empty chunks are kept, and the empty string yields one empty chunk. -/
def pySplitChar (sep : Char) (s : String) : List String :=
  (s.data.splitOn sep).map (fun l => String.mk l)

/-- Parsing of one response line of PunchSourceOlresultatSe._fetch_punches. -/
def rocParseLine (line : String) : RocPunchDict :=
  let fields := pySplitChar ';' line
  ⟨fields.get? 0, fields.get? 1, fields.get? 2, fields.get? 3⟩

/-- The cursor state of PunchSourceOlresultatSe: last_received_punch_id.
The stored value is a Python int; the config validator is
is_not_negative_int and the upstream ids are decimal, so Nat suffices. -/
structure RocState where
  lastReceivedPunchId : Nat
deriving DecidableEq, Repr

/-- Python int(s) on the decimal strings this source receives: defined
exactly when the string is a nonempty digit string, ValueError otherwise. -/
def pyInt (s : String) : Except PyError Nat :=
  if s.data ≠ [] ∧ s.data.all Char.isDigit then
    .ok (s.data.foldl (fun acc c => 10 * acc + (c.toNat - 48)) 0)
  else .error .valueError

/-- The per-line body of the loop in PunchSourceOlresultatSe._fetch_punches
(the method, not the module-level helper): deliver the punch to the
listeners when its controlCode is in the configured control codes, then set
last_received_punch_id to int(id). Missing keys raise KeyError and a
non-numeric id raises ValueError. There is no check against the current
last_received_punch_id. Returns the new state and the delivered punches. -/
def rocProcessDict (controlCodes : List String) (_s : RocState)
    (d : RocPunchDict) : Except PyError (RocState × List RocPunchDict) :=
  match d.controlCode with
  | none => .error .keyError
  | some cc =>
    let delivered := if cc ∈ controlCodes then [d] else []
    match d.id with
    | none => .error .keyError
    | some idStr =>
      match pyInt idStr with
      | .error e => .error e
      | .ok n => .ok ({ lastReceivedPunchId := n }, delivered)

/-- One line: parse then process. -/
def rocProcessLine (controlCodes : List String) (s : RocState)
    (line : String) : Except PyError (RocState × List RocPunchDict) :=
  rocProcessDict controlCodes s (rocParseLine line)

/-- Python str.splitlines for newline-delimited bodies: like splitting on
the newline character but without a trailing empty line. -/
def pySplitlines (s : String) : List String :=
  let l := pySplitChar (Char.ofNat 10) s
  if l.getLast? = some "" then l.dropLast else l

/-- Processing of all lines of one response body, in order, short-circuiting
on the first exception. -/
def rocProcessLines (controlCodes : List String) :
    RocState → List String → Except PyError (RocState × List RocPunchDict)
  | s, [] => .ok (s, [])
  | s, line :: rest =>
    match rocProcessLine controlCodes s line with
    | .error e => .error e
    | .ok (s1, ds) =>
      match rocProcessLines controlCodes s1 rest with
      | .error e => .error e
      | .ok (s2, ds2) => .ok (s2, ds ++ ds2)

/-- One full iteration of the PunchSourceOlresultatSe._fetch_punches loop
body: the fetch and the line processing run inside one try whose only
handlers are HTTPError and URLError; any other exception escapes the loop.
A caught transport error leaves the state unchanged and delivers nothing. -/
def rocFetchIteration (controlCodes : List String) (s : RocState)
    (fetchResult : Except PyError String) :
    Except PyError (RocState × List RocPunchDict) :=
  let r := match fetchResult with
    | .error e => (.error e : Except PyError (RocState × List RocPunchDict))
    | .ok body => rocProcessLines controlCodes s (pySplitlines body)
  match r with
  | .error .httpError => .ok (s, [])
  | .error .urlError => .ok (s, [])
  | other => other

/-! ## Theorems for claims C2 and C5 -/

/-- C2 counterexample: with cursor lastId 5 and relevant control code 101,
the remote-URL source delivers the fetched record 5;101;55;10:15:30 to the
listeners even though its id equals the cursor lastId — the claim says such
a record is skipped by both source variants. -/
theorem roc_equal_id_delivered_counterexample :
    rocProcessLine ["101"] ⟨5⟩ "5;101;55;10:15:30" =
      .ok (⟨5⟩, [⟨some "5", some "101", some "55", some "10:15:30"⟩]) ∧
    ([(⟨some "5", some "101", some "55", some "10:15:30"⟩ : RocPunchDict)] :
      List RocPunchDict) ≠ [] := by
  constructor
  · rfl
  · decide

/-- C2 amended: only the database polling source skips an event whose id
equals the cursor lastId (leaving state unchanged and delivering nothing);
the remote-URL source has no equal-id check and delivers every fetched
record whose control code is configured, setting lastId to the record's id
regardless of the previously held value. -/
theorem equal_id_skip_db_variant_only (s : OlaMySqlState) (st : SplitTime)
    (codes : List String) (rs : RocState) (d : RocPunchDict)
    (cc idStr : String) (n : Nat) :
    (s.lastReceivedPunchId = st.id → processSplitTime s st = (s, [])) ∧
    (d.controlCode = some cc → cc ∈ codes → d.id = some idStr →
      pyInt idStr = .ok n →
      rocProcessDict codes rs d = .ok (⟨n⟩, [d])) := by
  constructor
  · intro h
    simp [processSplitTime, h]
  · intro hcc hmem hid hn
    simp [rocProcessDict, hcc, hmem, hid, hn]

/-- Witness for equal_id_skip_db_variant_only: the database variant skips a
row with id equal to the held lastId, and the URL variant delivers a punch
whose id 5 equals its held lastId 5. -/
theorem equal_id_skip_db_variant_only_witness :
    processSplitTime ⟨"w0", "1_1_1", []⟩ ⟨"1_1_1", "w1"⟩ = (⟨"w0", "1_1_1", []⟩, []) ∧
    rocProcessDict ["101"] ⟨5⟩ ⟨some "5", some "101", some "55", some "10:15:30"⟩ =
      .ok (⟨5⟩, [⟨some "5", some "101", some "55", some "10:15:30"⟩]) :=
  ⟨(equal_id_skip_db_variant_only ⟨"w0", "1_1_1", []⟩ ⟨"1_1_1", "w1"⟩ ["101"] ⟨5⟩
      ⟨some "5", some "101", some "55", some "10:15:30"⟩ "101" "5" 5).1 rfl,
   (equal_id_skip_db_variant_only ⟨"w0", "1_1_1", []⟩ ⟨"1_1_1", "w1"⟩ ["101"] ⟨5⟩
      ⟨some "5", some "101", some "55", some "10:15:30"⟩ "101" "5" 5).2 rfl (by decide) rfl rfl⟩

/-- C5: for the remote-URL polling source, a fetched record whose
controlCode is not in the configured control codes is delivered to no
listener, and lastId is still advanced to that record's id. -/
theorem roc_irrelevant_control_filtered_cursor_advances
    (codes : List String) (s : RocState) (d : RocPunchDict)
    (cc idStr : String) (n : Nat)
    (hcc : d.controlCode = some cc) (hmem : cc ∉ codes)
    (hid : d.id = some idStr) (hn : pyInt idStr = .ok n) :
    rocProcessDict codes s d = .ok (⟨n⟩, []) := by
  simp [rocProcessDict, hcc, hmem, hid, hn]

/-- Witness for roc_irrelevant_control_filtered_cursor_advances: with
relevant codes 101, the record 7;202;55;12:00:05 is not delivered and the
cursor advances from 5 to 7. -/
theorem roc_irrelevant_control_filtered_cursor_advances_witness :
    rocProcessDict ["101"] ⟨5⟩ ⟨some "7", some "202", some "55", some "12:00:05"⟩ =
      .ok (⟨7⟩, []) :=
  roc_irrelevant_control_filtered_cursor_advances ["101"] ⟨5⟩
    ⟨some "7", some "202", some "55", some "12:00:05"⟩ "202" "7" 7 rfl (by decide) rfl rfl

/-! ## Enrichment and dispatch stage (PreWarning._process_punches) -/

/-- A raw punch dict as dequeued by PreWarning._process_punches. The outer
Option records whether the key is present in the dict; the inner Option is
the stored value, which may itself be Python None. -/
structure RawPunch where
  controlCode : Option (Option String)
  cardNumber : Option (Option String)
  passedTime : Option (Option String)
  bibNumber : Option (Option String)
  relayLeg : Option (Option String)
deriving DecidableEq, Repr

/-- The record returned by lookup_from_card_number: the bibNumber and
relayLeg values, each possibly None. -/
structure PreWarnData where
  bibNumber : Option String
  relayLeg : Option String
deriving DecidableEq, Repr

/-- PreWarning._to_str: the dash substitution for missing values. -/
def toStr : Option String → String
  | none => "-"
  | some v => v

/-- The trailing component of str.rpartition on a space: the part after the
last space, or the whole string when it has no space. -/
def afterLastSpace (s : String) : String :=
  ((pySplitChar ' ' s).getLast?).getD ""

/-- One row handed to the display sink by _add_pre_warning. -/
structure DisplayRow where
  passedTime : String
  bibNumber : String
  relayLeg : String
deriving DecidableEq, Repr

/-- One request enqueued on the announcement queue. -/
structure AnnouncementRequest where
  language : Option String
  sound : String
deriving DecidableEq, Repr

/-- The qualified name of the database-backed start list source class,
compared against the configured source name in _process_punches. -/
def startListSourceOlaMySqlName : String := "StartListSourceOlaMySql"

/-- The tail of _process_punches after enrichment: build the display row
from the trailing time-of-day of passedTime, the bib number and the relay
leg (dash-substituted), and enqueue one announcement request whose sound is
the bib number and whose language is None. Reading an absent key raises. -/
def emitPunch (p : RawPunch) :
    Except PyError (DisplayRow × AnnouncementRequest) :=
  match p.passedTime, p.bibNumber, p.relayLeg with
  | some pt, some bb, some lg =>
    let passedTime := afterLastSpace (toStr pt)
    let bibNumber := toStr bb
    let relayLeg := toStr lg
    .ok (⟨passedTime, bibNumber, relayLeg⟩, ⟨none, bibNumber⟩)
  | _, _, _ => .error .keyError

/-- punch.update(pre_warn_data): the looked-up values overwrite (or add)
the bibNumber and relayLeg keys. -/
def updatePunch (p : RawPunch) (d : PreWarnData) : RawPunch :=
  { p with bibNumber := some d.bibNumber, relayLeg := some d.relayLeg }

/-- One iteration of the PreWarning._process_punches consumer loop for one
dequeued punch: when the punch carries a bibNumber key and the active start
list source is not the database-backed one, a roster lookup overwrites the
pre-joined data when it succeeds and the existing data is kept when it
fails; without a bibNumber key a failed lookup drops the punch. The loop
has no exception handler, so any error is returned uncaught. Returns none
for a dropped punch, and the produced display row and announcement request
otherwise. -/
def processPunch (startListSourceName : String)
    (lookup : Option String → Option PreWarnData) (p : RawPunch) :
    Except PyError (Option (DisplayRow × AnnouncementRequest)) :=
  match p.cardNumber, p.controlCode with
  | some card, some _ =>
    match p.bibNumber with
    | some _ =>
      if startListSourceName ≠ startListSourceOlaMySqlName then
        match lookup card with
        | none => (emitPunch p).map some
        | some d => (emitPunch (updatePunch p d)).map some
      else (emitPunch p).map some
    | none =>
      match lookup card with
      | none => .ok none
      | some d => (emitPunch (updatePunch p d)).map some
  | _, _ => .error .keyError

/-! ## File-backed roster source (StartListSourceFile) -/

/-- One runner record stored in self.runners by _read_start_list. -/
structure Runner where
  runnerId : Option String
  family : Option String
  given : Option String
  leg : Option String
  legOrder : Option String
  teamBibNumber : Option String
  bibNumber : Option String
  controlCard : Option String
deriving DecidableEq, Repr

/-- The runners dict: insertion order association list with overwrite on an
existing key, as for a Python dict. -/
abbrev Runners := List (String × Runner)

/-- Python dict assignment: overwrite an existing key in place, append a
new key at the end. -/
def dictInsert : Runners → String → Runner → Runners
  | [], k, v => [(k, v)]
  | (k1, v1) :: rest, k, v =>
    if k1 = k then (k, v) :: rest else (k1, v1) :: dictInsert rest k v

/-- Python dict.get. -/
def dictGet : Runners → String → Option Runner
  | [], _ => none
  | (k1, v1) :: rest, k => if k1 = k then some v1 else dictGet rest k

/-- StartListSourceFile.lookup_from_card_number: project the stored runner
to its team bib number and leg; not-found yields None. -/
def lookupFromCardNumber (runners : Runners) (cardNumber : String) :
    Option PreWarnData :=
  match dictGet runners cardNumber with
  | some runner => some ⟨runner.teamBibNumber, runner.leg⟩
  | none => none

/-- The lookup as called from _process_punches, where the card number read
from the punch dict may be None; dict.get(None) finds nothing. -/
def lookupOpt (runners : Runners) : Option String → Option PreWarnData
  | none => none
  | some c => lookupFromCardNumber runners c

/-- A concrete roster for witnesses: card 55 belongs to team bib 12,
relay leg 2. -/
def rosterExample : Runners :=
  [("55", ⟨some "p1", some "Fam", some "Giv", some "2", some "1",
           some "12", some "12-2", some "55"⟩)]

/-- The roster map after _read_start_list has inserted the given card
to runner entries into the cleared dict, in file order. -/
def readStartListFinal (entries : List (String × Runner)) : Runners :=
  entries.foldl (fun m e => dictInsert m e.1 e.2) []

/-- The states of self.runners observable by a concurrent reader during
_read_start_list: the old dict before the clear, the empty dict right after
self.runners.clear(), and each partially repopulated dict after a prefix of
the per-runner insertions. The reload mutates the shared dict in place and
takes no lock, so a lookup can be serialized at any of these points. -/
def readStartListStates (old : Runners)
    (entries : List (String × Runner)) : List Runners :=
  old :: (List.range (entries.length + 1)).map
    (fun k => readStartListFinal (entries.take k))

/-! ## Audio sink (utils/sound.py) and announcement stage
(PreWarning._process_announcements) -/

/-- The environment of the Sound singleton and the announcement stage:
the configuration values, which sound files exist under the sounds
directory, and the exit code the mpg123 player returns for each file.
Wall-clock instants and the elapsed-seconds comparison of
_process_announcements are modelled in whole seconds as integers; only
subtraction and ordering of times are used by the code. -/
structure SoundConfig where
  soundEnabled : Bool
  defaultLanguage : String
  introSoundTriggerTimeoutSeconds : ℤ
  introSoundFile : String
  fileExists : String → Bool
  exitCode : String → Nat

/-- Sound._run_cmd: run the player and call result.check_returncode(),
which raises CalledProcessError exactly when the exit code is nonzero
(stderr is logged just before). -/
def runCmd (exitCode : Nat) : Except PyError Unit :=
  if exitCode = 0 then .ok () else .error .calledProcessError

/-- Sound.play_sound: when sound is enabled (or override is set), fall back
to ding.mp3 when the requested file does not exist (logged as an error),
then run the player; a nonzero player exit raises out of play_sound.
Returns the list of files actually played. -/
def playSound (cfg : SoundConfig) (sound : String) (override : Bool) :
    Except PyError (List String) :=
  if cfg.soundEnabled || override then
    let soundFile := if cfg.fileExists sound then sound else "ding.mp3"
    match runCmd (cfg.exitCode soundFile) with
    | .ok _ => .ok [soundFile]
    | .error e => .error e
  else .ok []

/-- Sound.play_sound_lang: prepend the language directory, falling back to
the configured default language when none is given. -/
def playSoundLang (cfg : SoundConfig) (sound : String)
    (lang : Option String) (override : Bool) :
    Except PyError (List String) :=
  let l := match lang with
    | none => cfg.defaultLanguage
    | some l => l
  playSound cfg (l ++ "/" ++ sound) override

/-- The intro-cue condition of PreWarning._process_announcements:
last_sound_time unset, or at least the configured timeout elapsed. -/
def introDue (timeoutSeconds : ℤ) (lastSoundTime : Option ℤ) (now : ℤ) :
    Bool :=
  match lastSoundTime with
  | none => true
  | some t => decide (now - t ≥ timeoutSeconds)

/-- The observable outcome of one announcement: the new last_sound_time,
whether the intro cue was played, and every file played, in order. -/
structure AnnStepResult where
  lastSoundTime : Option ℤ
  introPlayed : Bool
  played : List String
deriving DecidableEq, Repr

/-- One iteration of the PreWarning._process_announcements consumer loop
for one dequeued request at time now: play the intro cue when due, then
play the request's sound composed with its language, then set
last_sound_time to now. The loop has no exception handler, so a raised
CalledProcessError is returned uncaught. -/
def processAnnouncement (cfg : SoundConfig) (lastSoundTime : Option ℤ)
    (now : ℤ) (req : AnnouncementRequest) : Except PyError AnnStepResult :=
  match (if introDue cfg.introSoundTriggerTimeoutSeconds lastSoundTime now then
      playSound cfg cfg.introSoundFile false
    else .ok []) with
  | .error e => .error e
  | .ok introPlays =>
    match playSoundLang cfg (req.sound ++ ".mp3") req.language false with
    | .error e => .error e
    | .ok mainPlays =>
      .ok ⟨some now, !introPlays.isEmpty, introPlays ++ mainPlays⟩

/-- A run of the announcement consumer over timed requests: the final
last_sound_time, the number of intro-cue playbacks, and all played files. -/
def runAnnouncements (cfg : SoundConfig) :
    Option ℤ → List (ℤ × AnnouncementRequest) →
    Except PyError (Option ℤ × Nat × List String)
  | last, [] => .ok (last, 0, [])
  | last, (now, req) :: rest =>
    match processAnnouncement cfg last now req with
    | .error e => .error e
    | .ok r =>
      match runAnnouncements cfg r.lastSoundTime rest with
      | .error e => .error e
      | .ok (l, n, ps) =>
        .ok (l, (if r.introPlayed then 1 else 0) + n, r.played ++ ps)

/-! ## Theorems for claim C3 -/

/-- C3 counterexample: a malformed response record (a line with no
semicolons) makes one iteration of the remote-URL polling loop raise a
KeyError that the loop boundary does not catch — its only handlers are
HTTPError and URLError — so the exception terminates the loop thread,
contrary to the claim that every exception is caught at the loop boundary. -/
theorem roc_malformed_record_uncaught_counterexample :
    rocFetchIteration ["101"] ⟨0⟩ (.ok "abc") = .error .keyError := by
  rfl

/-- C3 amended: only the transport errors named in each loop's except
clauses are caught and logged at the loop boundary (HTTPError and URLError
for the remote-URL source, OperationalError for the database source); an
exception from a malformed response record escapes the polling loop, and
the Enrichment consumer loop has no handler at all, so a bad queued record
raises out of it. -/
theorem loop_catches_only_transport_errors (codes : List String)
    (s : RocState) (so : OlaMySqlState) (sls : String)
    (lookup : Option String → Option PreWarnData) (p : RawPunch) :
    rocFetchIteration codes s (.error .httpError) = .ok (s, []) ∧
    rocFetchIteration codes s (.error .urlError) = .ok (s, []) ∧
    olaFetchIteration so (.error .operationalError) =
      .ok (fetchIterationStart so, []) ∧
    rocFetchIteration codes s (.ok "abc") = .error .keyError ∧
    (p.cardNumber = none → processPunch sls lookup p = .error .keyError) := by
  refine ⟨rfl, rfl, rfl, rfl, ?_⟩
  intro h
  rcases p with ⟨pc, pcard, ppt, pbib, pleg⟩
  cases pcard with
  | none => cases pc <;> rfl
  | some c => simp at h

/-- Witness for loop_catches_only_transport_errors: a queued punch without
a cardNumber key raises KeyError out of the enrichment consumer loop. -/
theorem loop_catches_only_transport_errors_witness :
    processPunch "StartListSourceFile" (lookupOpt [])
      ⟨some (some "101"), none, some (some "12:00:05"), none, none⟩ =
      .error .keyError :=
  (loop_catches_only_transport_errors [] ⟨0⟩ ⟨"", "", []⟩ "StartListSourceFile"
    (lookupOpt [])
    ⟨some (some "101"), none, some (some "12:00:05"), none, none⟩).2.2.2.2 rfl

/-! ## Theorems for claims C7 and C10 -/

/-- C7: a dequeued raw punch with no pre-joined bib data is dropped,
producing neither display row nor announcement, when the roster lookup for
its cardNumber fails; when the lookup succeeds, exactly one display row
(trailing time-of-day of passedTime, bib number, relay leg, dash for
missing values) and one announcement request with the bib number as sound
key are produced. -/
theorem enrichment_no_prejoined (sls : String)
    (lookup : Option String → Option PreWarnData)
    (cc card pt : Option String) (d : PreWarnData) :
    (lookup card = none →
      processPunch sls lookup ⟨some cc, some card, some pt, none, none⟩ =
        .ok none) ∧
    (lookup card = some d →
      processPunch sls lookup ⟨some cc, some card, some pt, none, none⟩ =
        .ok (some (⟨afterLastSpace (toStr pt), toStr d.bibNumber, toStr d.relayLeg⟩,
                   ⟨none, toStr d.bibNumber⟩))) := by
  constructor <;> intro h <;>
    simp [processPunch, h, emitPunch, updatePunch, Except.map]

/-- Witness for enrichment_no_prejoined, the end-to-end scenario: card 55
maps to bib 12 leg 2, so 10;101;55;10:15:30 yields the display row
(10:15:30, 12, 2) and one announcement with sound key 12; an unknown card
99 yields a dropped punch. -/
theorem enrichment_no_prejoined_witness :
    processPunch "StartListSourceFile" (lookupOpt rosterExample)
      ⟨some (some "101"), some (some "55"), some (some "10:15:30"), none, none⟩ =
      .ok (some (⟨"10:15:30", "12", "2"⟩, ⟨none, "12"⟩)) ∧
    processPunch "StartListSourceFile" (lookupOpt rosterExample)
      ⟨some (some "101"), some (some "99"), some (some "12:00:05"), none, none⟩ =
      .ok none :=
  ⟨(enrichment_no_prejoined "StartListSourceFile" (lookupOpt rosterExample)
      (some "101") (some "55") (some "10:15:30") ⟨some "12", some "2"⟩).2 rfl,
   (enrichment_no_prejoined "StartListSourceFile" (lookupOpt rosterExample)
      (some "101") (some "99") (some "12:00:05") ⟨some "12", some "2"⟩).1 rfl⟩

/-- C10: a dequeued punch that already carries a bibNumber key, with the
active start list source not the database-backed one, still triggers a
roster lookup: a successful lookup overwrites the pre-joined bib and leg
values, and a failed lookup keeps the existing data and still produces the
display row and the announcement instead of dropping the punch. -/
theorem enrichment_prejoined_non_db (sls : String)
    (lookup : Option String → Option PreWarnData)
    (cc card pt bb lg : Option String) (d : PreWarnData)
    (hsls : sls ≠ startListSourceOlaMySqlName) :
    (lookup card = none →
      processPunch sls lookup ⟨some cc, some card, some pt, some bb, some lg⟩ =
        .ok (some (⟨afterLastSpace (toStr pt), toStr bb, toStr lg⟩,
                   ⟨none, toStr bb⟩))) ∧
    (lookup card = some d →
      processPunch sls lookup ⟨some cc, some card, some pt, some bb, some lg⟩ =
        .ok (some (⟨afterLastSpace (toStr pt), toStr d.bibNumber, toStr d.relayLeg⟩,
                   ⟨none, toStr d.bibNumber⟩))) := by
  constructor <;> intro h <;>
    simp [processPunch, hsls, h, emitPunch, updatePunch, Except.map]

/-- Witness for enrichment_prejoined_non_db: with the file-backed source
active, a pre-joined punch for card 55 has its bib 99 and leg 9 overwritten
by the roster values 12 and 2; for the unknown card 99 the punch keeps its
pre-joined data and is still displayed and announced. -/
theorem enrichment_prejoined_non_db_witness :
    processPunch "StartListSourceFile" (lookupOpt rosterExample)
      ⟨some (some "101"), some (some "55"), some (some "10:15:30"),
       some (some "99"), some (some "9")⟩ =
      .ok (some (⟨"10:15:30", "12", "2"⟩, ⟨none, "12"⟩)) ∧
    processPunch "StartListSourceFile" (lookupOpt rosterExample)
      ⟨some (some "101"), some (some "99"), some (some "10:15:30"),
       some (some "99"), some (some "9")⟩ =
      .ok (some (⟨"10:15:30", "99", "9"⟩, ⟨none, "99"⟩)) :=
  ⟨(enrichment_prejoined_non_db "StartListSourceFile" (lookupOpt rosterExample)
      (some "101") (some "55") (some "10:15:30") (some "99") (some "9")
      ⟨some "12", some "2"⟩ (by decide)).2 rfl,
   (enrichment_prejoined_non_db "StartListSourceFile" (lookupOpt rosterExample)
      (some "101") (some "99") (some "10:15:30") (some "99") (some "9")
      ⟨some "12", some "2"⟩ (by decide)).1 rfl⟩

/-! ## Theorems for claims C6 and C8 -/

/-- A sound environment for the intro-cue scenarios: sound enabled, default
language sv, a 10 second intro timeout, every file present, every playback
exiting 0. -/
def introScenarioCfg : SoundConfig :=
  ⟨true, "sv", 10, "intro.mp3", fun _ => true, fun _ => 0⟩

/-- Helper: with sound enabled, a successful play_sound plays exactly the
requested file, or ding.mp3 when the requested file does not exist. -/
theorem playSound_enabled_ok (cfg : SoundConfig) (sound : String)
    (l : List String) (he : cfg.soundEnabled = true)
    (h : playSound cfg sound false = .ok l) :
    l = [if cfg.fileExists sound then sound else "ding.mp3"] := by
  unfold playSound runCmd at h
  rw [he] at h
  simp only [Bool.true_or, if_true] at h
  split at h
  · simp at h
    exact h.symm
  · cases h

/-- C6: the announcement stage plays the intro cue exactly when
last_sound_time is unset or the elapsed time since it is at least the
configured intro timeout, and it sets last_sound_time to the current time
after every announcement; with a 10 second timeout, requests 3 seconds
apart produce one intro playback and requests 15 seconds apart produce
two. -/
theorem announcement_intro_debounce (cfg : SoundConfig)
    (last : Option ℤ) (t now timeout : ℤ) (req : AnnouncementRequest)
    (r : AnnStepResult) :
    (cfg.soundEnabled = true → processAnnouncement cfg last now req = .ok r →
      r.lastSoundTime = some now ∧
      r.introPlayed = introDue cfg.introSoundTriggerTimeoutSeconds last now) ∧
    introDue timeout none now = true ∧
    (introDue timeout (some t) now = true ↔ now - t ≥ timeout) ∧
    runAnnouncements introScenarioCfg none
      [(0, ⟨none, "12"⟩), (3, ⟨none, "13"⟩)] =
      .ok (some 3, 1, ["intro.mp3", "sv/12.mp3", "sv/13.mp3"]) ∧
    runAnnouncements introScenarioCfg none
      [(0, ⟨none, "12"⟩), (15, ⟨none, "13"⟩)] =
      .ok (some 15, 2, ["intro.mp3", "sv/12.mp3", "intro.mp3", "sv/13.mp3"]) := by
  refine ⟨?_, rfl, ?_, by rfl, by rfl⟩
  · intro he hok
    unfold processAnnouncement at hok
    by_cases hd : introDue cfg.introSoundTriggerTimeoutSeconds last now
    · rw [if_pos hd] at hok
      split at hok
      · cases hok
      · rename_i introPlays hintro
        split at hok
        · cases hok
        · cases hok
          have : introPlays =
              [if cfg.fileExists cfg.introSoundFile then cfg.introSoundFile
               else "ding.mp3"] :=
            playSound_enabled_ok cfg cfg.introSoundFile introPlays he hintro
          subst this
          exact ⟨rfl, by simp [hd]⟩
    · rw [if_neg hd] at hok
      split at hok
      · cases hok
      · rename_i introPlays hintro
        split at hok
        · cases hok
        · cases hok
          cases hintro
          simp [hd]
  · simp [introDue]

/-- C8 counterexample: with sound enabled, the intro due, the intro file
present, and the player exiting nonzero, one announcement iteration raises
CalledProcessError out of the announcement stage instead of logging the
play failure and continuing — so a play failure is fatal on this code. -/
theorem play_failure_fatal_counterexample :
    processAnnouncement ⟨true, "sv", 10, "intro.mp3", fun _ => true, fun _ => 1⟩
      none 0 ⟨none, "12"⟩ = .error .calledProcessError := by
  rfl

/-- C8 amended: a play failure is logged but fatal. A missing sound file
is logged and replaced by the ding.mp3 fallback without raising, but a
nonzero player exit makes _run_cmd raise CalledProcessError out of
play_sound, and the announcement stage has no handler, so a failed intro
cue aborts the announcement (the main sound is never played) and the
exception propagates out of the stage loop. -/
theorem play_failure_raises_out (cfg : SoundConfig) (sound : String)
    (last : Option ℤ) (now : ℤ) (req : AnnouncementRequest) :
    (cfg.soundEnabled = true → cfg.fileExists sound = false →
      cfg.exitCode "ding.mp3" = 0 →
      playSound cfg sound false = .ok ["ding.mp3"]) ∧
    (cfg.soundEnabled = true →
      cfg.exitCode (if cfg.fileExists sound then sound else "ding.mp3") ≠ 0 →
      playSound cfg sound false = .error .calledProcessError) ∧
    (cfg.soundEnabled = true →
      introDue cfg.introSoundTriggerTimeoutSeconds last now = true →
      cfg.exitCode (if cfg.fileExists cfg.introSoundFile then cfg.introSoundFile
        else "ding.mp3") ≠ 0 →
      processAnnouncement cfg last now req = .error .calledProcessError) := by
  refine ⟨?_, ?_, ?_⟩
  · intro he hmiss hding
    simp [playSound, runCmd, he, hmiss, hding]
  · intro he hcode
    simp [playSound, runCmd, he, hcode]
  · intro he hdue hcode
    have hps : playSound cfg cfg.introSoundFile false = .error .calledProcessError := by
      simp [playSound, runCmd, he, hcode]
    simp [processAnnouncement, hdue, hps]

/-- Witness for play_failure_raises_out: the fallback plays ding.mp3, a
nonzero exit raises, and a failing intro cue aborts the announcement. -/
theorem play_failure_raises_out_witness :
    playSound ⟨true, "sv", 10, "intro.mp3", fun _ => false, fun _ => 0⟩
      "gone.mp3" false = .ok ["ding.mp3"] ∧
    playSound ⟨true, "sv", 10, "intro.mp3", fun _ => true, fun _ => 2⟩
      "intro.mp3" false = .error .calledProcessError ∧
    processAnnouncement ⟨true, "sv", 10, "intro.mp3", fun _ => true, fun _ => 2⟩
      none 5 ⟨none, "12"⟩ = .error .calledProcessError :=
  ⟨(play_failure_raises_out ⟨true, "sv", 10, "intro.mp3", fun _ => false, fun _ => 0⟩
      "gone.mp3" none 5 ⟨none, "12"⟩).1 rfl rfl rfl,
   (play_failure_raises_out ⟨true, "sv", 10, "intro.mp3", fun _ => true, fun _ => 2⟩
      "intro.mp3" none 5 ⟨none, "12"⟩).2.1 rfl (by decide),
   (play_failure_raises_out ⟨true, "sv", 10, "intro.mp3", fun _ => true, fun _ => 2⟩
      "intro.mp3" none 5 ⟨none, "12"⟩).2.2 rfl rfl (by decide)⟩

/-! ## Theorems for claim C4 -/

/-- The runner stored for card 55 in the old roster generation. -/
def runnerOld55 : Runner :=
  ⟨some "p1", some "F1", some "G1", some "1", some "1",
   some "12", some "12-1", some "55"⟩

/-- The runner stored for card 55 in the new roster generation. -/
def runnerNew55 : Runner :=
  ⟨some "p1", some "F1", some "G1", some "1", some "1",
   some "13", some "13-1", some "55"⟩

/-- The runner stored for card 66 in the new roster generation only. -/
def runnerNew66 : Runner :=
  ⟨some "p2", some "F2", some "G2", some "2", some "1",
   some "14", some "14-2", some "66"⟩

/-- The old roster generation: card 55 with team bib 12. -/
def oldRoster : Runners := [("55", runnerOld55)]

/-- The new roster generation as parsed from the file: card 55 now with
team bib 13, and a new card 66. -/
def newRosterEntries : List (String × Runner) :=
  [("55", runnerNew55), ("66", runnerNew66)]

/-- C4 counterexample: during a reload from oldRoster to newRosterEntries,
the in-place repopulation of self.runners passes through the state holding
only the new card 55 entry; a lookup serialized there observes a mapping
that is neither the entirely old roster (it returns the new bib 13 for
card 55) nor the entirely new one (it has no entry for card 66) — a
mixture of generations, contradicting the claim. -/
theorem roster_reload_mixture_counterexample :
    [("55", runnerNew55)] ∈ readStartListStates oldRoster newRosterEntries ∧
    ¬ ((∀ c, lookupFromCardNumber [("55", runnerNew55)] c =
          lookupFromCardNumber oldRoster c) ∨
       (∀ c, lookupFromCardNumber [("55", runnerNew55)] c =
          lookupFromCardNumber (readStartListFinal newRosterEntries) c)) := by
  constructor
  · decide
  · rintro (h | h)
    · have h55 := h "55"
      revert h55
      decide
    · have h66 := h "66"
      revert h66
      decide

/-- C4 amended: the file-backed roster reload is not atomic: it clears and
repopulates the shared runners dict in place with no lock, so whenever both
generations are nonempty a lookup interleaved with the reload can observe
an intermediate mapping (here the cleared one) that agrees with neither the
old nor the new roster generation. -/
theorem roster_reload_not_atomic (old : Runners)
    (entries : List (String × Runner)) (c1 c2 : String)
    (e1 e2 : PreWarnData)
    (h1 : lookupFromCardNumber old c1 = some e1)
    (h2 : lookupFromCardNumber (readStartListFinal entries) c2 = some e2) :
    ∃ s ∈ readStartListStates old entries,
      ¬ (∀ c, lookupFromCardNumber s c = lookupFromCardNumber old c) ∧
      ¬ (∀ c, lookupFromCardNumber s c =
          lookupFromCardNumber (readStartListFinal entries) c) := by
  refine ⟨[], ?_, ?_, ?_⟩
  · exact List.mem_cons_of_mem _
      (List.mem_map.mpr ⟨0, by simp, by simp [readStartListFinal]⟩)
  · intro h
    have hc := h c1
    rw [h1] at hc
    simp [lookupFromCardNumber, dictGet] at hc
  · intro h
    have hc := h c2
    rw [h2] at hc
    simp [lookupFromCardNumber, dictGet] at hc

/-- Witness for roster_reload_not_atomic at the concrete generations. -/
theorem roster_reload_not_atomic_witness :
    ∃ s ∈ readStartListStates oldRoster newRosterEntries,
      ¬ (∀ c, lookupFromCardNumber s c = lookupFromCardNumber oldRoster c) ∧
      ¬ (∀ c, lookupFromCardNumber s c =
          lookupFromCardNumber (readStartListFinal newRosterEntries) c) :=
  roster_reload_not_atomic oldRoster newRosterEntries "55" "66"
    ⟨some "12", some "1"⟩ ⟨some "14", some "2"⟩ rfl rfl

end Prewarning
